import Mathlib

/-!
Shallow embedding of two modules of a web meta-framework:

* `packages/nuxt/src/app/composables/router.ts` — navigation composables
  (`navigateTo`, `abortNavigation`, `addRouteMiddleware`).
* the auto-import build module (`regenerateImports`, the `builder:watch`
  and `app:templatesGenerated` hook handlers, `isImportsTemplate`).

Runtime environment facts (`process.server`, `process.dev`, the nuxt app's
middleware-processing flag, the presence of an SSR event) are modelled as an
explicit environment record.  External dependencies (`ufo`, `pathe`,
`unimport`, the hook bus) are modelled by small executable functions or by
function-valued fields of the environment, each documented at its
definition.
-/

namespace NuxtModel

/-! ### String helpers (kernel-reducible replacements for String.startsWith / endsWith) -/

/-- Boolean test that `pre` is a prefix of `s`, computed on the character lists. -/
def strStartsWith (s pre : String) : Bool :=
  List.isPrefixOf pre.data s.data

/-- Boolean test that `suf` is a suffix of `s`, computed on the character lists. -/
def strEndsWith (s suf : String) : Bool :=
  List.isSuffixOf suf.data s.data

/-! ### Models of the `ufo` URL library (dependency of router.ts, not part of this repo) -/

/-- Characters allowed in a URL scheme by ufo's protocol regexp `[\w+.-]`. -/
def isProtocolChar (c : Char) : Bool :=
  c.isAlphanum || c = '_' || c = '+' || c = '.' || c = '-'

/-- Longest leading run of protocol characters of a character list. -/
def schemeChars : List Char → List Char
  | [] => []
  | c :: cs => if isProtocolChar c then c :: schemeChars cs else []

/-- Models ufo: the string begins with a scheme of at least two protocol
characters immediately followed by a colon (the regexp `^[\w+.-]{2,}:`). -/
def hasScheme (s : String) : Bool :=
  let pre := schemeChars s.data
  decide (2 ≤ pre.length) && (match s.data.drop pre.length with
    | ':' :: _ => true
    | _ => false)

/-- Models ufo `hasProtocol(s, { acceptRelative: true })`: a scheme-and-colon
start, or a protocol-relative start (`//` followed by a non-slash). -/
def hasProtocol (s : String) : Bool :=
  hasScheme s ||
    (match s.data with
      | '/' :: '/' :: c :: _ => !(c = '/')
      | _ => false)

/-- Lower-cased copy of a string, as JavaScript `toLowerCase` on the
scheme characters at play here. -/
def lowerString (s : String) : String :=
  String.mk (s.data.map Char.toLower)

/-- The protocols ufo's `parseURL` special-cases up front
(`/^(blob:|data:|javascript:|vbscript:)/i`); `script:` is not among them. -/
def specialProtos : List String :=
  ["blob:", "data:", "javascript:", "vbscript:"]

/-- Whether the scheme run is immediately followed by `://`, which is what
ufo's main parse regexp `^([\w+.-]{2,}:)?\/\/…` requires for the protocol
group to capture. -/
def schemeSlashSlash (s : String) : Bool :=
  match s.data.drop (schemeChars s.data).length with
  | ':' :: '/' :: '/' :: _ => true
  | _ => false

/-- Models ufo `parseURL(s).protocol`: a special-cased protocol
(`blob:`/`data:`/`javascript:`/`vbscript:`) is returned from any prefix
match; otherwise the main parse regexp captures a protocol only when the
scheme is followed by `//` — a bare `scheme:rest` input parses to the empty
protocol.  (The leading `[\s\0]*` skip and the backslash-to-slash
normalisation of the input, which no claim touches, are not modelled.) -/
def urlProtocol (s : String) : String :=
  match specialProtos.find? (fun p => strStartsWith (lowerString s) p) with
  | some p => p
  | none =>
    if hasScheme s && schemeSlashSlash s then
      String.mk ((schemeChars s.data).map Char.toLower) ++ ":"
    else
      ""

/-- Models ufo `joinURL(base, p)`: concatenation collapsing a doubled slash at
the join point. -/
def joinURL (base p : String) : String :=
  if base = "" then p
  else if strEndsWith base "/" && strStartsWith p "/" then base ++ (p.drop 1)
  else if !strEndsWith base "/" && !strStartsWith p "/" then base ++ "/" ++ p
  else base ++ p

/-- Models pathe `resolve(base, p)` as used by the watch handlers: an
absolute path is returned unchanged, otherwise it is joined below `base`. -/
def resolvePath (base p : String) : String :=
  if strStartsWith p "/" then p else base ++ "/" ++ p

/-! ### Navigation targets (`RouteLocationRaw | undefined | null`) -/

/-- A navigation target: `nil` models `null`/`undefined`, `str` a string
location, `route` a route-location object whose `path` field may be absent. -/
inductive Target where
  | nil : Target
  | str (s : String) : Target
  | route (path : Option String) : Target
deriving DecidableEq, Repr

/-- JavaScript falsiness of the `tgt` argument: `null`/`undefined` and the
empty string are falsy; any object is truthy. -/
def isFalsyTarget : Target → Bool
  | .nil => true
  | .str s => s = ""
  | .route _ => false

/-- The `if (!tgt) { tgt = '/' }` normalisation at the top of `navigateTo`. -/
def normalizeTarget (tgt : Target) : Target :=
  if isFalsyTarget tgt then .str "/" else tgt

/-- The `toPath` computation:
`typeof tgt === 'string' ? tgt : (tgt.path || '/')` (an absent or empty `path`
falls back to `'/'`). -/
def targetPath : Target → String
  | .str s => s
  | .route (some p) => if p = "" then "/" else p
  | .route none => "/"
  | .nil => "/"

/-! ### Runtime environment of the router composables -/

/-- Environment facts the router composables branch on.  `server` models
`process.server` (with `process.client` its negation, as in any real build),
`dev` models `process.dev`, `processingMiddleware` the result of
`isProcessingMiddleware()` (true while middleware runs, or when the nuxt app
context is unavailable inside an async middleware), `ssrEvent` whether
`nuxtApp.ssrContext && nuxtApp.ssrContext.event` holds, `baseURL` the runtime
config `app.baseURL`, and `resolveFullPath` models
`router.resolve(tgt).fullPath`. -/
structure NavEnv where
  server : Bool
  dev : Bool
  processingMiddleware : Bool
  ssrEvent : Bool
  baseURL : String
  resolveFullPath : Target → String

/-- Model of `process.client`: the negation of `process.server`. -/
def processClient (env : NavEnv) : Bool := !env.server

/-- Model of `isProcessingMiddleware()`, read off the environment. -/
def isProcessingMiddleware (env : NavEnv) : Bool := env.processingMiddleware

/-- The options bag of `navigateTo`; an omitted options argument is the
record with all defaults (`options?.x` reads the same either way). -/
structure NavigateToOptions where
  replace : Bool := false
  redirectCode : Option Nat := none
  external : Bool := false
deriving DecidableEq, Repr

/-- The terminal action `navigateTo` ends in: a thrown error, the raw-target
early return inside client middleware, a deferred server redirect registered
behind a `router.beforeEach` guard (which also returns the raw target), an
immediate server `sendRedirect`, a `location.replace`, a `location.href`
assignment, or a router `replace`/`push`. -/
inductive NavigateResult where
  | thrown (msg : String) : NavigateResult
  | returnRaw (tgt : Target) : NavigateResult
  | deferredRedirect (tgt : Target) (fullPath : String) : NavigateResult
  | serverRedirect (location : String) (code : Nat) (abortsRoute : Bool) : NavigateResult
  | locationReplace (path : String) : NavigateResult
  | locationAssign (path : String) : NavigateResult
  | routerReplace (tgt : Target) : NavigateResult
  | routerPush (tgt : Target) : NavigateResult
deriving DecidableEq, Repr

/-- Message of the disallowed-external-navigation error. -/
def externalNotAllowedMsg : String :=
  "Navigating to external URL is not allowed by default."

/-- Message of the script-protocol error. -/
def scriptProtocolMsg : String :=
  "Cannot navigate to an URL with script protocol."

/-- Shallow embedding of `navigateTo` (router.ts lines 89-142), branch for
branch: falsy-target normalisation; `toPath`; the external computation
`options?.external || hasProtocol(toPath, { acceptRelative: true })`; the two
throws; the client-side early return inside middleware; the server branch
with its deferred or immediate redirect (`options?.redirectCode || 302`); the
external `location` branch; and the final router push/replace. -/
def navigateTo (to0 : Target) (options : NavigateToOptions) (env : NavEnv) :
    NavigateResult :=
  let tgt := normalizeTarget to0
  let toPath := targetPath tgt
  let isExternal := options.external || hasProtocol toPath
  if isExternal && !options.external then
    .thrown externalNotAllowedMsg
  else if isExternal && urlProtocol toPath = "script:" then
    .thrown scriptProtocolMsg
  else
    let inMiddleware := isProcessingMiddleware env
    if processClient env && !isExternal && inMiddleware then
      .returnRaw tgt
    else if env.server && env.ssrEvent then
      let fullPath :=
        match tgt with
        | .str _ => toPath
        | _ =>
          if isExternal then toPath
          else if env.resolveFullPath tgt = "" then "/" else env.resolveFullPath tgt
      let redirectLocation := if isExternal then toPath else joinURL env.baseURL fullPath
      let code := match options.redirectCode with
        | some c => if c = 0 then 302 else c
        | none => 302
      if !isExternal && inMiddleware then
        .deferredRedirect tgt fullPath
      else
        .serverRedirect redirectLocation code inMiddleware
    else if isExternal then
      if options.replace then .locationReplace toPath else .locationAssign toPath
    else if options.replace then
      .routerReplace tgt
    else
      .routerPush tgt

/-- Whether a navigation result is a thrown error. -/
def isThrown : NavigateResult → Bool
  | .thrown _ => true
  | _ => false

/-! ### abortNavigation -/

/-- The `err` argument of `abortNavigation`: a string or a partial error
object (modelled by its message). -/
inductive ErrInput where
  | str (s : String) : ErrInput
  | obj (message : String) : ErrInput
deriving DecidableEq, Repr

/-- JavaScript truthiness of the `err` argument: the empty string is falsy,
every other string and every object is truthy. -/
def errInputTruthy : ErrInput → Bool
  | .str s => !(s = "")
  | .obj _ => true

/-- Models `createError` from the error composable (its module is not among
the provided sources): it wraps its input into a `NuxtError`. -/
structure NuxtError where
  cause : ErrInput
deriving DecidableEq, Repr

/-- Wrap an input into a `NuxtError`, as `createError(err)` does. -/
def createError (e : ErrInput) : NuxtError := ⟨e⟩

/-- The outcome of `abortNavigation`: the misuse error thrown outside a
middleware context in dev, a thrown `createError(err)`, or a plain return. -/
inductive AbortResult where
  | thrownMisuse : AbortResult
  | thrownCreated (e : NuxtError) : AbortResult
  | ret (b : Bool) : AbortResult
deriving DecidableEq, Repr

/-- Shallow embedding of `abortNavigation` (router.ts lines 145-153): in dev
outside a middleware context it throws the misuse error; a truthy `err` is
thrown via `createError`; otherwise it returns `false`. -/
def abortNavigation (err : Option ErrInput) (env : NavEnv) : AbortResult :=
  if env.dev && !isProcessingMiddleware env then
    .thrownMisuse
  else
    match err with
    | some e => if errInputTruthy e then .thrownCreated (createError e) else .ret false
    | none => .ret false

/-! ### addRouteMiddleware -/

/-- The middleware registry held on the nuxt app instance
(`nuxtApp._middleware`): the mutable list of global middleware and the
name-keyed mapping of named middleware (an insertion-ordered association
list, as a JavaScript object's string keys are).  `M` stands for the type of
middleware functions, which the registry never inspects. -/
structure MiddlewareState (M : Type) where
  globalMw : List M
  named : List (String × M)
deriving DecidableEq, Repr

/-- Update of a JavaScript object property `named[name] = mw`: an existing
key keeps its position and gets the new value, a new key is appended. -/
def setNamed {M : Type} (l : List (String × M)) (k : String) (v : M) :
    List (String × M) :=
  if l.any (fun p => p.1 = k) then
    l.map (fun p => if p.1 = k then (k, v) else p)
  else
    l ++ [(k, v)]

/-- Lookup in the named mapping. -/
def lookupNamed {M : Type} (l : List (String × M)) (k : String) : Option M :=
  (l.find? (fun p => p.1 = k)).map (fun p => p.2)

/-- The overloaded argument list of `addRouteMiddleware`: either a lone
middleware function, or a name with an optional middleware function and the
`global` option (`false` when the options argument is omitted). -/
inductive AddRouteMiddlewareArgs (M : Type) where
  | fn (mw : M) : AddRouteMiddlewareArgs M
  | named (name : String) (mw : Option M) (globalOpt : Bool) :
      AddRouteMiddlewareArgs M

/-- Shallow embedding of `addRouteMiddleware` (router.ts lines 56-69):
`global` is the option or the name-is-a-function overload; a missing
middleware only warns and leaves the registry unchanged; a global
registration pushes onto the global list; a named one assigns into the
named mapping. -/
def addRouteMiddleware {M : Type} (args : AddRouteMiddlewareArgs M)
    (st : MiddlewareState M) : MiddlewareState M :=
  let globalFlag := match args with
    | .fn _ => true
    | .named _ _ g => g
  let mw : Option M := match args with
    | .fn m => some m
    | .named _ m _ => m
  match mw with
  | none => st
  | some m =>
    if globalFlag then
      { st with globalMw := st.globalMw ++ [m] }
    else
      match args with
      | .fn _ => st
      | .named name _ _ => { st with named := setNamed st.named name m }

/-! ### The auto-import build module -/

/-- An entry of the dynamic import list, as `unimport` hands it to the
module: the name it is imported from and its optional priority (JavaScript
`i.priority`, where `0` and `undefined` are both falsy). -/
structure ImportEntry where
  name : String
  fromMod : String
  priority : Option Int := none
deriving DecidableEq, Repr

/-- A registered template, identified by its filename. -/
structure Template where
  filename : String
deriving DecidableEq, Repr

/-- The regexp `/\/imports\.(?:d\.ts|mjs)$/` applied to the template's
filename: the filename ends in `/imports.d.ts` or `/imports.mjs`. -/
def isImportsTemplate (t : Template) : Bool :=
  strEndsWith t.filename "/imports.d.ts" || strEndsWith t.filename "/imports.mjs"

/-- The per-build context of the imports module after `setup` has run:
the `scan` option; the resolved composables directories (populated only when
`scan` is on, and empty otherwise); the source directory the watcher
resolves against; a model of `scanDirExports` from `unimport` (a pure map
from the scanned directories to the found exports); the combined effect of
the handlers registered on the `imports:extend` hook (they receive the list
and may mutate it arbitrarily); the layer priorities list, longest `srcDir`
first; and the registered templates `updateTemplates` ranges over. -/
structure ImportsCtx where
  scan : Bool
  composablesDirs : List String
  srcDir : String
  scanDirExports : List String → List ImportEntry
  extendHook : List ImportEntry → List ImportEntry
  priorities : List (String × Int)
  registeredTemplates : List Template

/-- The mutable module-visible state the claims observe: the dynamic import
list held by the unimport context, and the log of template filenames
re-rendered by calls to `updateTemplates` (appended in order). -/
structure ModuleState where
  dynamicImports : List ImportEntry
  renderedLog : List String
deriving DecidableEq, Repr

/-- The priority fill-in
`i.priority = i.priority || priorities.find(([dir]) => i.from.startsWith(dir))?.[1]`:
a falsy priority (`undefined` or `0`) is replaced by the priority of the
first layer whose source directory is a prefix of the entry's origin
(`undefined`, i.e. `none`, when no layer matches). -/
def assignPriority (prios : List (String × Int)) (i : ImportEntry) : ImportEntry :=
  if i.priority.getD 0 = 0 then
    { i with priority := (prios.find? (fun p => strStartsWith i.fromMod p.1)).map (fun p => p.2) }
  else
    i

/-- Model of `updateTemplates({ filter })`: re-renders exactly the
registered templates accepted by the filter, logging their filenames. -/
def updateTemplates (filt : Template → Bool) (registered : List Template)
    (st : ModuleState) : ModuleState :=
  { st with renderedLog := st.renderedLog ++ (registered.filter filt).map Template.filename }

/-- Shallow embedding of `regenerateImports` (the imports module): inside
`modifyDynamicImports` the list is cleared (`imports.length = 0`), then when
`scan` is on the exports scanned from the composables directories get their
priorities filled in and are pushed, then the `imports:extend` hook runs on
the list and its result is persisted; finally `updateTemplates` re-renders
the templates accepted by `isImportsTemplate`. -/
def regenerateImports (ctx : ImportsCtx) (st : ModuleState) : ModuleState :=
  let imports0 : List ImportEntry := []
  let imports1 :=
    if ctx.scan then
      imports0 ++ (ctx.scanDirExports ctx.composablesDirs).map (assignPriority ctx.priorities)
    else
      imports0
  let imports2 := ctx.extendHook imports1
  let st1 := { st with dynamicImports := imports2 }
  updateTemplates isImportsTemplate ctx.registeredTemplates st1

/-- The file-watcher events chokidar reports through `builder:watch`. -/
inductive WatchEvent where
  | add | addDir | change | unlink | unlinkDir
deriving DecidableEq, Repr

/-- The `['addDir', 'unlinkDir'].includes(event)` test. -/
def isDirEvent : WatchEvent → Bool
  | .addDir => true
  | .unlinkDir => true
  | _ => false

/-- The observable outcome of dispatching one `builder:watch` event to the
handlers the module registered: whether the restart hook was invoked,
whether `regenerateImports` ran, and the resulting module state. -/
structure WatchOutcome where
  restartRequested : Bool
  regenerated : Bool
  state : ModuleState
deriving DecidableEq, Repr

/-- Dispatch of a `builder:watch` event to both handlers registered during
`setup`, in registration order.  The first handler (registered only when
`scan` is on) requests a restart when an `addDir`/`unlinkDir` event resolves
to one of the composables directories.  The second regenerates the imports
when `scan` is on and the resolved path is a composables directory or lies
inside one. -/
def builderWatchDispatch (ctx : ImportsCtx) (event : WatchEvent)
    (relativePath : String) (st : ModuleState) : WatchOutcome :=
  let path := resolvePath ctx.srcDir relativePath
  let restart :=
    ctx.scan && (isDirEvent event && ctx.composablesDirs.contains path)
  let hit :=
    ctx.scan && ctx.composablesDirs.any (fun dir => dir = path || strStartsWith path (dir ++ "/"))
  if hit then
    ⟨restart, true, regenerateImports ctx st⟩
  else
    ⟨restart, false, st⟩

/-- Dispatch of the `app:templatesGenerated` hook: `regenerateImports` runs
exactly when some updated template is not an imports template; the returned
flag records whether it ran. -/
def templatesGeneratedDispatch (ctx : ImportsCtx) (updated : List Template)
    (st : ModuleState) : Bool × ModuleState :=
  if updated.any (fun t => !isImportsTemplate t) then
    (true, regenerateImports ctx st)
  else
    (false, st)

/-! ### Sample concrete instances used to instantiate the theorems -/

/-- A client-side environment with middleware processing active. -/
def clientMwEnv : NavEnv := ⟨false, true, true, false, "/", fun _ => "/"⟩

/-- A client-side environment outside middleware, in a production build. -/
def prodClientEnv : NavEnv := ⟨false, false, false, false, "/", fun _ => "/"⟩

/-- A client-side environment outside middleware, in a dev build. -/
def devClientEnv : NavEnv := ⟨false, true, false, false, "/", fun _ => "/"⟩

/-- A sample import entry, as an `imports:extend` handler might add. -/
def sampleEntry : ImportEntry := ⟨"useFoo", "foo-module", none⟩

/-- A sample imports context with scanning disabled and an `imports:extend`
handler that appends `sampleEntry`. -/
def ctxNoScan : ImportsCtx :=
  ⟨false, [], "/src", fun _ => [], fun l => l ++ [sampleEntry], [],
    [⟨"types/imports.d.ts"⟩, ⟨"app.vue"⟩]⟩

/-- A sample imports context with scanning enabled over one composables
directory. -/
def ctxScan : ImportsCtx :=
  ⟨true, ["/src/composables"], "/src",
    fun _ => [⟨"useBar", "/src/composables/bar.ts", none⟩],
    fun l => l, [("/src", -1)],
    [⟨"types/imports.d.ts"⟩, ⟨"app.vue"⟩]⟩

/-- An empty module state. -/
def st0 : ModuleState := ⟨[], []⟩

/-! ### Helper lemmas -/

/-- A string whose parsed protocol is `script:` has a scheme followed by
`//`: the special-proto branch can only produce the four special protocols,
so the main-regexp branch must have fired. -/
theorem urlProtocol_script_parts (s : String)
    (h : urlProtocol s = "script:") :
    hasScheme s = true ∧ schemeSlashSlash s = true := by
  unfold urlProtocol at h
  rcases hf : specialProtos.find? (fun p => strStartsWith (lowerString s) p)
    with _ | p
  · rw [hf] at h
    have h' : (if hasScheme s && schemeSlashSlash s then
        String.mk ((schemeChars s.data).map Char.toLower) ++ ":"
      else "") = "script:" := h
    by_cases hc : (hasScheme s && schemeSlashSlash s) = true
    · simp only [Bool.and_eq_true] at hc
      exact hc
    · rw [if_neg hc] at h'
      exact absurd h' (by decide)
  · rw [hf] at h
    have hp2 : p = "script:" := h
    have hmem := List.mem_of_find?_eq_some hf
    rw [hp2] at hmem
    exact absurd hmem (by decide)

/-- A string with no protocol has no scheme either. -/
theorem hasScheme_eq_false_of_hasProtocol (s : String)
    (h : hasProtocol s = false) : hasScheme s = false := by
  unfold hasProtocol at h
  exact (Bool.or_eq_false_iff.mp h).1

/-- When the path carries no protocol, `navigateTo` never throws: the first
throw's condition is the contradiction `external && !external`, and the
second needs a scheme to produce the `script:` protocol. -/
theorem navigateTo_not_thrown_of_no_protocol (tgt : Target)
    (options : NavigateToOptions) (env : NavEnv)
    (h : hasProtocol (targetPath (normalizeTarget tgt)) = false) :
    isThrown (navigateTo tgt options env) = false := by
  have h1 : hasScheme (targetPath (normalizeTarget tgt)) = false :=
    hasScheme_eq_false_of_hasProtocol _ h
  have h2 : urlProtocol (targetPath (normalizeTarget tgt)) ≠ "script:" := by
    intro hc
    have hs := (urlProtocol_script_parts _ hc).1
    rw [h1] at hs
    exact Bool.false_ne_true hs
  obtain ⟨rep, rc, ext⟩ := options
  obtain ⟨srv, dev, mw, ssr, base, rfp⟩ := env
  cases ext <;> cases srv <;> cases mw <;> cases ssr <;> cases rep <;>
    simp [navigateTo, processClient, isProcessingMiddleware, isThrown, h, h2]

/-- Looking up the key just assigned by `setNamed` yields the new value. -/
theorem lookupNamed_setNamed_self {M : Type} (l : List (String × M))
    (k : String) (v : M) : lookupNamed (setNamed l k v) k = some v := by
  unfold setNamed
  split
  case isTrue hany =>
    induction l with
    | nil => simp at hany
    | cons p rest ih =>
      by_cases hp : p.1 = k
      · simp [lookupNamed, hp]
      · simp only [List.any_cons, Bool.or_eq_true, decide_eq_true_eq] at hany
        rcases hany with hany | hany
        · exact absurd hany hp
        · simpa [lookupNamed, hp] using ih hany
  case isFalse hany =>
    induction l with
    | nil => simp [lookupNamed]
    | cons p rest ih =>
      simp only [List.any_cons, Bool.or_eq_true, decide_eq_true_eq, not_or] at hany
      simpa [lookupNamed, hany.1] using ih (by simpa using hany.2)

/-- Reassigning the key `k` leaves lookups of any other key unchanged. -/
theorem lookupNamed_map_assign_other {M : Type} (l : List (String × M))
    (k k' : String) (v : M) (h : k' ≠ k) :
    lookupNamed (List.map (fun p => if p.1 = k then (k, v) else p) l) k' =
      lookupNamed l k' := by
  induction l with
  | nil => rfl
  | cons p rest ih =>
    by_cases hp : p.1 = k
    · have h1 : ¬(k = k') := Ne.symm h
      have h2 : ¬(p.1 = k') := by rw [hp]; exact h1
      simpa [lookupNamed, List.find?, hp, h1, h2] using ih
    · by_cases hp' : p.1 = k'
      · simp [lookupNamed, List.find?, hp, hp', h]
      · simpa [lookupNamed, List.find?, hp, hp'] using ih

/-- Appending a fresh association for `k` leaves lookups of any other key
unchanged. -/
theorem lookupNamed_append_single_other {M : Type} (l : List (String × M))
    (k k' : String) (v : M) (h : k' ≠ k) :
    lookupNamed (l ++ [(k, v)]) k' = lookupNamed l k' := by
  induction l with
  | nil => simp [lookupNamed, List.find?, Ne.symm h]
  | cons p rest ih =>
    by_cases hp' : p.1 = k'
    · simp [lookupNamed, List.find?, hp']
    · simpa [lookupNamed, List.find?, hp'] using ih

/-- `setNamed` leaves every other key's association unchanged. -/
theorem lookupNamed_setNamed_other {M : Type} (l : List (String × M))
    (k k' : String) (v : M) (h : k' ≠ k) :
    lookupNamed (setNamed l k v) k' = lookupNamed l k' := by
  unfold setNamed
  split
  · exact lookupNamed_map_assign_other l k k' v h
  · exact lookupNamed_append_single_other l k k' v h

/-! ### Claim theorems -/

/-- C1 counterexample: on the client, inside middleware, the internal empty
string target is not returned unchanged: `navigateTo` first normalises it to
`'/'` and returns that, so the value returned differs from the raw target. -/
theorem navigateTo_empty_target_counterexample :
    navigateTo (.str "") {} clientMwEnv = .returnRaw (.str "/") ∧
      navigateTo (.str "") {} clientMwEnv ≠ .returnRaw (.str "") := by
  constructor <;> decide

/-- C1 (amended): for every internal (no protocol, no `external` option)
navigation target, on the client while middleware is processing,
`navigateTo` performs no other terminal action and returns the target —
unchanged, except that a falsy target (null, undefined or the empty string)
has first been normalised to `'/'` and that normalised value is returned. -/
theorem navigateTo_client_middleware_returns_target (tgt : Target)
    (options : NavigateToOptions) (env : NavEnv)
    (hserver : env.server = false) (hmw : env.processingMiddleware = true)
    (hext : options.external = false)
    (hproto : hasProtocol (targetPath (normalizeTarget tgt)) = false) :
    navigateTo tgt options env = .returnRaw (normalizeTarget tgt) := by
  simp [navigateTo, processClient, isProcessingMiddleware, hserver, hmw, hext,
    hproto]

/-- Witness for C1's amended theorem at a concrete non-falsy target. -/
theorem navigateTo_client_middleware_returns_target_witness :
    navigateTo (.str "/about") {} clientMwEnv = .returnRaw (.str "/about") :=
  navigateTo_client_middleware_returns_target (.str "/about") {} clientMwEnv
    rfl rfl rfl (by decide)

/-- C2 (confirmed): for every target whose path carries a protocol, when the
caller has not passed `external: true`, `navigateTo` throws the
disallowed-external-navigation error — a terminal outcome distinct from
every navigation action. -/
theorem navigateTo_external_without_flag_throws (tgt : Target)
    (options : NavigateToOptions) (env : NavEnv)
    (hs : hasScheme (targetPath (normalizeTarget tgt)) = true)
    (hext : options.external = false) :
    navigateTo tgt options env = .thrown externalNotAllowedMsg := by
  simp [navigateTo, hasProtocol, hs, hext]

/-- Witness for C2 at a concrete https URL. -/
theorem navigateTo_external_without_flag_throws_witness :
    navigateTo (.str "https://example.com") {} devClientEnv =
      .thrown externalNotAllowedMsg :=
  navigateTo_external_without_flag_throws (.str "https://example.com") {}
    devClientEnv (by decide) rfl

/-- C3 (confirmed): `regenerateImports` clears the list, re-scans only when
`scan` is on, passes the result through the `imports:extend` hook, persists
the hook's result as the dynamic import list, and re-renders exactly the
imports templates; with scanning disabled the persisted list is exactly the
hook's contribution to the empty list. -/
theorem regenerateImports_pipeline (ctx : ImportsCtx) (st : ModuleState) :
    (regenerateImports ctx st).dynamicImports =
      ctx.extendHook
        (if ctx.scan then
          (ctx.scanDirExports ctx.composablesDirs).map
            (assignPriority ctx.priorities)
        else []) ∧
    (regenerateImports ctx st).renderedLog =
      st.renderedLog ++
        (ctx.registeredTemplates.filter isImportsTemplate).map
          Template.filename ∧
    (ctx.scan = false →
      (regenerateImports ctx st).dynamicImports = ctx.extendHook []) := by
  refine ⟨?_, rfl, ?_⟩
  · cases hs : ctx.scan <;> simp [regenerateImports, updateTemplates, hs]
  · intro hs
    simp [regenerateImports, updateTemplates, hs]

/-- Witness for C3 at a concrete no-scan context: the persisted list is the
extension hook's output on the empty list. -/
theorem regenerateImports_pipeline_witness :
    (regenerateImports ctxNoScan st0).dynamicImports =
      ctxNoScan.extendHook [] ∧
    (regenerateImports ctxNoScan st0).dynamicImports = [sampleEntry] := by
  have h := (regenerateImports_pipeline ctxNoScan st0).2.2 rfl
  exact ⟨h, h.trans (by decide)⟩

/-- C4 (confirmed): an `addDir`/`unlinkDir` event on a configured
composables directory makes the watch handlers regenerate the import list
and re-render the dependent templates (and also request the restart the
first handler is registered for). -/
theorem builderWatch_dir_event_regenerates (ctx : ImportsCtx)
    (ev : WatchEvent) (rel : String) (st : ModuleState)
    (hscan : ctx.scan = true) (hev : isDirEvent ev = true)
    (hmem : ctx.composablesDirs.contains (resolvePath ctx.srcDir rel) = true) :
    (builderWatchDispatch ctx ev rel st).restartRequested = true ∧
    (builderWatchDispatch ctx ev rel st).regenerated = true ∧
    (builderWatchDispatch ctx ev rel st).state = regenerateImports ctx st := by
  have hmem' : resolvePath ctx.srcDir rel ∈ ctx.composablesDirs := by
    simpa using hmem
  have hhit : (ctx.composablesDirs.any fun dir =>
      decide (dir = resolvePath ctx.srcDir rel) ||
        strStartsWith (resolvePath ctx.srcDir rel) (dir ++ "/")) = true := by
    refine List.any_eq_true.mpr ⟨_, hmem', ?_⟩
    simp
  simp [builderWatchDispatch, hscan, hev, hmem, hhit, hmem']

/-- Witness for C4 at a concrete context and event. -/
theorem builderWatch_dir_event_regenerates_witness :
    (builderWatchDispatch ctxScan .addDir "composables" st0).regenerated =
      true :=
  (builderWatch_dir_event_regenerates ctxScan .addDir "composables" st0
    rfl rfl (by decide)).2.1

/-- C5 (confirmed): the `app:templatesGenerated` handler regenerates exactly
when some updated template is not an imports template (filename not ending
in `/imports.d.ts` or `/imports.mjs`); otherwise the state is untouched. -/
theorem templatesGenerated_regenerates_iff (ctx : ImportsCtx)
    (updated : List Template) (st : ModuleState) :
    ((templatesGeneratedDispatch ctx updated st).1 = true ↔
      ∃ t ∈ updated, isImportsTemplate t = false) ∧
    ((templatesGeneratedDispatch ctx updated st).1 = true →
      (templatesGeneratedDispatch ctx updated st).2 = regenerateImports ctx st) ∧
    ((templatesGeneratedDispatch ctx updated st).1 = false →
      (templatesGeneratedDispatch ctx updated st).2 = st) := by
  by_cases h : ∃ t ∈ updated, isImportsTemplate t = false
  case pos =>
    obtain ⟨t, ht, hf⟩ := h
    have hany : (updated.any fun t => !isImportsTemplate t) = true :=
      List.any_eq_true.mpr ⟨t, ht, by simp [hf]⟩
    refine ⟨?_, ?_, ?_⟩ <;> simp [templatesGeneratedDispatch, hany]
    exact ⟨t, ht, hf⟩
  case neg =>
    have hany : (updated.any fun t => !isImportsTemplate t) = false := by
      rw [Bool.eq_false_iff]
      intro hc
      obtain ⟨t, ht, hf⟩ := List.any_eq_true.mp hc
      exact h ⟨t, ht, by simpa using hf⟩
    refine ⟨?_, ?_, ?_⟩ <;> simp [templatesGeneratedDispatch, hany]
    intro t ht
    by_contra hft
    exact h ⟨t, ht, by simpa using hft⟩

/-- Witness for C5: one non-imports template triggers regeneration. -/
theorem templatesGenerated_regenerates_iff_witness :
    (templatesGeneratedDispatch ctxNoScan [⟨"app.vue"⟩] st0).1 = true :=
  ((templatesGenerated_regenerates_iff ctxNoScan [⟨"app.vue"⟩] st0).1).mpr
    ⟨⟨"app.vue"⟩, by decide, by decide⟩

/-- C6 counterexample: in a production build (`process.dev` false),
`abortNavigation` called outside a middleware context with no error
argument silently returns `false` instead of throwing. -/
theorem abortNavigation_prod_outside_middleware_silent :
    abortNavigation none prodClientEnv = .ret false := by decide

/-- C6 (amended): in development builds, `abortNavigation` called outside a
route middleware context always throws the misuse error, whatever the
argument; the check is a dev-only guard. -/
theorem abortNavigation_dev_outside_middleware_throws (err : Option ErrInput)
    (env : NavEnv) (hdev : env.dev = true)
    (hmw : env.processingMiddleware = false) :
    abortNavigation err env = .thrownMisuse := by
  simp [abortNavigation, isProcessingMiddleware, hdev, hmw]

/-- Witness for C6's amended theorem at a concrete dev environment. -/
theorem abortNavigation_dev_outside_middleware_throws_witness :
    abortNavigation (some (.str "Oops")) devClientEnv = .thrownMisuse :=
  abortNavigation_dev_outside_middleware_throws (some (.str "Oops"))
    devClientEnv rfl rfl

/-- C7 counterexample: inside middleware, the empty-string error argument is
falsy, so `abortNavigation('')` returns `false` instead of throwing. -/
theorem abortNavigation_empty_error_in_middleware_silent :
    abortNavigation (some (.str "")) clientMwEnv = .ret false := by decide

/-- C7 (amended): inside a route middleware context, `abortNavigation`
returns the sentinel `false` without throwing when called with no error
argument or with the falsy empty-string one, and throws the error created
from a truthy error argument. -/
theorem abortNavigation_in_middleware_behavior (err : Option ErrInput)
    (env : NavEnv) (hmw : env.processingMiddleware = true) :
    (∀ e, err = some e → errInputTruthy e = true →
        abortNavigation err env = .thrownCreated (createError e)) ∧
    ((err = none ∨ err = some (.str "")) →
        abortNavigation err env = .ret false) := by
  constructor
  · rintro e rfl he
    simp [abortNavigation, isProcessingMiddleware, hmw, he]
  · rintro (rfl | rfl) <;>
      simp [abortNavigation, isProcessingMiddleware, hmw, errInputTruthy]

/-- Witness for C7's amended theorem at a concrete truthy error object. -/
theorem abortNavigation_in_middleware_behavior_witness :
    abortNavigation (some (.obj "Oops")) clientMwEnv =
      .thrownCreated (createError (.obj "Oops")) :=
  (abortNavigation_in_middleware_behavior (some (.obj "Oops")) clientMwEnv
    rfl).1 (.obj "Oops") rfl rfl

/-- C8 (confirmed): a global registration (lone function, or options with
`global: true`) appends the function at the end of the global list and
leaves the named mapping untouched; a named registration leaves the global
list untouched, binds the given name to the function, and leaves every
other name's binding unchanged. -/
theorem addRouteMiddleware_registry (M : Type) (st : MiddlewareState M)
    (m : M) (name : String) :
    (addRouteMiddleware (.fn m) st).globalMw = st.globalMw ++ [m] ∧
    (addRouteMiddleware (.fn m) st).named = st.named ∧
    (addRouteMiddleware (.named name (some m) true) st).globalMw =
      st.globalMw ++ [m] ∧
    (addRouteMiddleware (.named name (some m) true) st).named = st.named ∧
    (addRouteMiddleware (.named name (some m) false) st).globalMw =
      st.globalMw ∧
    lookupNamed (addRouteMiddleware (.named name (some m) false) st).named
      name = some m ∧
    ∀ k, k ≠ name →
      lookupNamed (addRouteMiddleware (.named name (some m) false) st).named
        k = lookupNamed st.named k := by
  refine ⟨rfl, rfl, rfl, rfl, rfl, ?_, ?_⟩
  · exact lookupNamed_setNamed_self st.named name m
  · intro k hk
    exact lookupNamed_setNamed_other st.named name k m hk

/-- Witness for C8 at a concrete registry over `Nat` labels. -/
theorem addRouteMiddleware_registry_witness :
    lookupNamed (addRouteMiddleware (.named "b" (some 5) false)
        (⟨[7], [("a", 1)]⟩ : MiddlewareState Nat)).named "b" = some 5 ∧
    lookupNamed (addRouteMiddleware (.named "b" (some 5) false)
        (⟨[7], [("a", 1)]⟩ : MiddlewareState Nat)).named "a" = some 1 := by
  have h := addRouteMiddleware_registry Nat ⟨[7], [("a", 1)]⟩ 5 "b"
  exact ⟨h.2.2.2.2.2.1, (h.2.2.2.2.2.2 "a" (by decide)).trans (by decide)⟩

/-- C9 (confirmed): a null or undefined target is replaced by `'/'`:
`navigateTo` behaves exactly as when called on `'/'`, and in particular
never throws. -/
theorem navigateTo_nullish_defaults_to_root (options : NavigateToOptions)
    (env : NavEnv) :
    navigateTo .nil options env = navigateTo (.str "/") options env ∧
      isThrown (navigateTo .nil options env) = false :=
  ⟨rfl, navigateTo_not_thrown_of_no_protocol .nil options env (by decide)⟩

/-- C10 counterexample: `script:alert(1)` is a URL with the `script:`
scheme, yet its parsed protocol is empty (`parseURL` captures a protocol
only before `//`), so the guard does not fire: with `external: true` on the
client, `navigateTo` performs the `location.href` assignment instead of
throwing. -/
theorem navigateTo_bare_script_url_navigates :
    String.mk (schemeChars "script:alert(1)".data) = "script" ∧
    urlProtocol "script:alert(1)" = "" ∧
    navigateTo (.str "script:alert(1)") ⟨false, none, true⟩ prodClientEnv =
      .locationAssign "script:alert(1)" := by
  refine ⟨by decide, by decide, by decide⟩

/-- C10 (amended): for every external navigation target whose URL parses to
the `script:` protocol — the `script` scheme followed by `//`, as ufo's
`parseURL` requires before it reports a protocol — `navigateTo` throws for
every options value, with `external: true` the dedicated script-protocol
error, so no navigation action is performed for such a URL; a bare
`script:rest` URL parses to no protocol and escapes the guard. -/
theorem navigateTo_parsed_script_protocol_throws (tgt : Target)
    (options : NavigateToOptions) (env : NavEnv)
    (hp : urlProtocol (targetPath (normalizeTarget tgt)) = "script:") :
    isThrown (navigateTo tgt options env) = true ∧
      (options.external = true →
        navigateTo tgt options env = .thrown scriptProtocolMsg) := by
  have hs : hasScheme (targetPath (normalizeTarget tgt)) = true :=
    (urlProtocol_script_parts _ hp).1
  constructor
  · cases hx : options.external
    · simp [navigateTo, hasProtocol, hs, hx, isThrown]
    · simp [navigateTo, hasProtocol, hs, hx, hp, isThrown]
  · intro hx
    simp [navigateTo, hasProtocol, hs, hx, hp]

/-- Witness for C10's amended theorem at a concrete `script://` URL with
`external: true`. -/
theorem navigateTo_parsed_script_protocol_throws_witness :
    navigateTo (.str "script://evil") ⟨false, none, true⟩ clientMwEnv =
      .thrown scriptProtocolMsg :=
  (navigateTo_parsed_script_protocol_throws (.str "script://evil")
    ⟨false, none, true⟩ clientMwEnv (by decide)).2 rfl

end NuxtModel
